import Mathlib

/-! Verification development for the atlas-server-watch discord bot: a shallow
embedding of `awsdb/utils.py` and `awsdb/commands.py` together with theorems
about the command dispatcher, the config store and the polling-cycle logic. -/

set_option maxRecDepth 4000

/-- Python strings are modelled as lists of characters. -/
abbrev Str := List Char

/-- Python `str.upper()` on the ASCII data the bot handles. -/
def pyUpper (s : Str) : Str := s.map Char.toUpper

/-- Python `str.strip()`: drop leading and trailing whitespace. -/
def pyStrip (s : Str) : Str :=
  ((s.dropWhile Char.isWhitespace).reverse.dropWhile Char.isWhitespace).reverse

/-- Python `haystack.find(needle) != -1`: substring containment, true for an
    empty needle. -/
def isSubstring (needle : Str) : Str → Bool
  | [] => needle.isEmpty
  | c :: t => needle.isPrefixOf (c :: t) || isSubstring needle t

/-- Decimal digit run to a natural number; `none` when empty or non-digit. -/
def digitsToNat (s : Str) : Option Nat :=
  if s = [] then none
  else if s.all Char.isDigit then
    some (s.foldl (fun acc c => acc * 10 + (c.toNat - 48)) 0)
  else none

/-- Python `int(s)` in base 10 (strip, optional sign, digit run); `none` models
    the `ValueError` raised on any other input. -/
def pyInt (s : Str) : Option Int :=
  match pyStrip s with
  | [] => none
  | c :: rest =>
    if c = '-' then (digitsToNat rest).map (fun n => -(n : Int))
    else if c = '+' then (digitsToNat rest).map (fun n => (n : Int))
    else (digitsToNat (c :: rest)).map (fun n => (n : Int))

/-- Python `str.isdecimal()` on the ASCII inputs the bot handles. -/
def pyIsDecimal (s : Str) : Bool := !s.isEmpty && s.all Char.isDigit

/-- One per-server snapshot entry as built into `servers_info`
    (commands.py lines 376-381). -/
structure ServerInfo where
  server_name : Str
  player_count : Int
  player_sbn_count : Int
  enemy_players : List Str
  deriving Repr, DecidableEq

/-- The mutable bot state held by `ASWDConfig` (utils.py).  `writes` counts the
    calls to `ASWDConfig.write`, i.e. rewrites of the persisted config file. -/
structure ASWDConfig where
  watch_world : Int
  watch_interval : Int
  player_sbn_count : Int
  enemy_list : List (Str × Str)
  is_watch_started : Bool
  last_servers_info : List (Str × ServerInfo)
  enemy_notice_server_names : List Str
  writes : Nat
  deriving Repr, DecidableEq

/-- The `watch_world` property setter (utils.py lines 40-43): store and persist. -/
def ASWDConfig.set_watch_world (c : ASWDConfig) (v : Int) : ASWDConfig :=
  { c with watch_world := v, writes := c.writes + 1 }

/-- The `watch_interval` property setter (utils.py lines 49-52): store and persist.
    No clamping happens here. -/
def ASWDConfig.set_watch_interval (c : ASWDConfig) (v : Int) : ASWDConfig :=
  { c with watch_interval := v, writes := c.writes + 1 }

/-- The `player_sbn_count` property setter (utils.py lines 58-61): clamp to the
    minimum 3, store and persist. -/
def ASWDConfig.set_player_sbn_count (c : ASWDConfig) (v : Int) : ASWDConfig :=
  { c with player_sbn_count := if v ≥ 3 then v else 3, writes := c.writes + 1 }

/-- Names (dictionary keys) of the enemy list. -/
def ASWDConfig.enemy_names (c : ASWDConfig) : List Str := c.enemy_list.map Prod.fst

/-- Method `ASWDConfig.add_enemy` (utils.py lines 67-82): fail when the name is
    already a key, otherwise insert (company stripped, empty when falsy) and
    persist. -/
def ASWDConfig.add_enemy (c : ASWDConfig) (name company : Str) : Bool × ASWDConfig :=
  if name ∈ c.enemy_names then (false, c)
  else
    (true,
      { c with
          enemy_list := c.enemy_list ++ [(name, if company ≠ [] then pyStrip company else [])],
          writes := c.writes + 1 })

/-- Method `ASWDConfig.del_enemy` (utils.py lines 84-97): pop the entry with exactly
    this key and persist; fail without mutating or persisting when absent. -/
def ASWDConfig.del_enemy (c : ASWDConfig) (name : Str) : Bool × ASWDConfig :=
  if name ∈ c.enemy_names then
    (true,
      { c with
          enemy_list := c.enemy_list.eraseP (fun p => p.1 == name),
          writes := c.writes + 1 })
  else (false, c)

/-- One rendered item `name(company)` of the enemy listing (utils.py line 107). -/
def render_enemy (p : Str × Str) : Str := p.1 ++ [ '(' ] ++ p.2 ++ [ ')' ]

/-- The items collected by `ASWDConfig.list_enemy` before joining
    (utils.py lines 105-107). -/
def ASWDConfig.list_enemy_items (c : ASWDConfig) : List Str :=
  c.enemy_list.map render_enemy

/-- Method `ASWDConfig.list_enemy` (utils.py lines 99-108): comma-joined items. -/
def ASWDConfig.list_enemy (c : ASWDConfig) : Str :=
  List.intercalate (", ".toList) c.list_enemy_items

/-- Enemy matching of one poll cycle (commands.py lines 369-374): the outer
    loop runs over the watch-list entries, the inner loop over the fetched
    player names; a nonempty player name whose uppercase form contains the
    uppercase entry name is rendered as `playerName(companyOfEntry)`. -/
def enemy_match (enemy_list : List (Str × Str)) (players : List Str) : List Str :=
  enemy_list.flatMap (fun e =>
    players.filterMap (fun pname =>
      if pname ≠ [] && isSubstring (pyUpper e.1) (pyUpper pname) then
        some (pname ++ [ '(' ] ++ e.2 ++ [ ')' ])
      else none))

/-- The `player_sbn_count` computation for one server (commands.py lines
    358-364): 0 when no prior snapshot entry exists for the name; current
    minus prior when the prior player count was positive; the sentinel -1
    otherwise. -/
def compute_player_sbn_count (last_servers_info : List (Str × ServerInfo))
    (server_name : Str) (player_count : Int) : Int :=
  match last_servers_info.lookup server_name with
  | none => 0
  | some last =>
    if 0 < last.player_count then player_count - last.player_count else -1

/-- The kinds of chat message emitted per reporting channel in one cycle
    (commands.py lines 402-423); the formatted text, which embeds a timestamp,
    is abstracted to a constructor carrying the interpolated data. -/
inductive Notification where
  | statusLine (server_name : Str) (player_count : Int) (enemy_players : List Str)
  | surgeAlert (player_sbn_count player_count : Int)
  | intrusionAlert (enemy_players : List Str)
  | allClear
  deriving Repr, DecidableEq

def isSurgeAlert : Notification → Bool
  | .surgeAlert _ _ => true
  | _ => false

def isIntrusionAlert : Notification → Bool
  | .intrusionAlert _ => true
  | _ => false

def isAllClear : Notification → Bool
  | .allClear => true
  | _ => false

/-- Per-server notification step of one cycle (commands.py lines 397-423):
    the status line, then the surge alert when the configured threshold is
    reached, then the edge-triggered intrusion alert / all-clear maintained
    against the `enemy_notice_server_names` list; returns the emitted messages
    and the updated notice list. -/
def notify_server (player_sbn_count_threshold : Int) (notice : List Str)
    (info : ServerInfo) : List Notification × List Str :=
  let msgs1 :=
    if player_sbn_count_threshold ≤ info.player_sbn_count then
      [Notification.statusLine info.server_name info.player_count info.enemy_players,
       Notification.surgeAlert info.player_sbn_count info.player_count]
    else
      [Notification.statusLine info.server_name info.player_count info.enemy_players]
  let step2 : List Notification × List Str :=
    if 0 < info.enemy_players.length then
      if info.server_name ∈ notice then (msgs1, notice)
      else (msgs1 ++ [Notification.intrusionAlert info.enemy_players],
            notice ++ [info.server_name])
    else (msgs1, notice)
  if info.enemy_players.length = 0 ∧ info.server_name ∈ step2.2 then
    (step2.1 ++ [Notification.allClear], step2.2.erase info.server_name)
  else step2

/-- Fold of `notify_server` over the snapshots one server produces in
    consecutive poll cycles, accumulating every emitted message. -/
def run_cycles (threshold : Int) (infos : List ServerInfo) (notice : List Str) :
    List Notification × List Str :=
  match infos with
  | [] => ([], notice)
  | i :: rest =>
    let r := notify_server threshold notice i
    let rr := run_cycles threshold rest r.2
    (r.1 ++ rr.1, rr.2)

/-- The sixteen commands registered by `CommandManager.__init__`
    (commands.py lines 196-214). -/
inductive CmdId where
  | startCmd | stopCmd | addEnemy | delEnemy | listEnemy
  | addBl | delBl | listBl | addServer | delServer
  | statusCmd | setWorld | setInterval | setPlayerCount | fuckYeah | helpCmd
  deriving Repr, DecidableEq

/-- The command list in registration order, the help command appended last
    (commands.py lines 196-214). -/
def cmd_list : List CmdId :=
  [.startCmd, .stopCmd, .addEnemy, .delEnemy, .listEnemy, .addBl, .delBl,
   .listBl, .addServer, .delServer, .statusCmd, .setWorld, .setInterval,
   .setPlayerCount, .fuckYeah, .helpCmd]

/-- Each command's token (the `cmd` constructor argument). -/
def token : CmdId → Str
  | .startCmd => "/start".toList
  | .stopCmd => "/stop".toList
  | .addEnemy => "/add enemy".toList
  | .delEnemy => "/del enemy".toList
  | .listEnemy => "/list enemy".toList
  | .addBl => "/add bl".toList
  | .delBl => "/del bl".toList
  | .listBl => "/list bl".toList
  | .addServer => "/add server".toList
  | .delServer => "/del server".toList
  | .statusCmd => "/status".toList
  | .setWorld => "/set world".toList
  | .setInterval => "/set interval".toList
  | .setPlayerCount => "/set player_count".toList
  | .fuckYeah => "/fuck".toList
  | .helpCmd => "/?".toList

/-- Each command's `has_args` flag (constructor arguments in commands.py). -/
def has_args : CmdId → Bool
  | .startCmd => false
  | .stopCmd => false
  | .addEnemy => true
  | .delEnemy => true
  | .listEnemy => false
  | .addBl => true
  | .delBl => true
  | .listBl => false
  | .addServer => true
  | .delServer => true
  | .statusCmd => false
  | .setWorld => true
  | .setInterval => true
  | .setPlayerCount => true
  | .fuckYeah => true
  | .helpCmd => false

/-- Each command's `usage()` text (commands.py). -/
def usage : CmdId → Str
  | .startCmd =>
    ("`/start`\nサーバの監視を開始します.\n指定時間ごとにサーバやプレイヤー情報を取得して各報告用チャンネルに出力し、プレイヤーが急増した場合や敵プレイヤーが監視サーバに侵入した場合に通知します.").toList
  | .stopCmd => ("`/stop`\nサーバの監視を終了します.").toList
  | .addEnemy =>
    ("`/add enemy [プレイヤー名] [カンパニー名]`\n敵プレイヤーを追加します.\n追加した敵プレイヤーは監視中のサーバに現れた場合、通知します.\nカンパニー名は省略可能です.\n名前やカンパニー名に空白が存在する場合、ダブルクォートで囲んでください.(例: /add enemy \"player name\" \"company name\")\n敵プレイヤー名は大文字小文字問わずあいまい検索で判定します.(例: Bcd を追加した場合、abcde というプレイヤーに一致します.)").toList
  | .delEnemy => ("`/del enemy [プレイヤー名] [カンパニー名]`\n敵プレイヤーを削除します.").toList
  | .listEnemy => ("`/list enemy`\n敵プレイヤーの一覧を表示します.").toList
  | .addBl =>
    ("`/add bl [プレイヤー名] [カンパニー名]`\n敵プレイヤーを追加します.\n/add enemy と同様の処理を行います.").toList
  | .delBl =>
    ("`/del bl [プレイヤー名] [カンパニー名]`\n敵プレイヤーを削除します.\n/del enemy と同様の処理を行います.").toList
  | .listBl =>
    ("`/list bl`\n敵プレイヤーの一覧を表示します.\n/list enemy と同様の処理を行います.").toList
  | .addServer =>
    ("`/add server [サーバー名(A1-O15)]`\n監視対象とするサーバを追加します.\n追加するとDiscordにサーバー監視報告用のチャンネルを作成します.").toList
  | .delServer =>
    ("`/del server　[サーバー名(A1-O15)]`\n監視対象とするサーバを削除します.\n削除するとDiscordにサーバー監視報告用のチャンネルもあわせて削除します.").toList
  | .statusCmd => ("`/status`\n各設定値や監視状態など現在の状態を表示します.").toList
  | .setWorld =>
    ("`/set world　[1-4]`\n監視ワールドを設定します.\n設定は数字で入力してください\n(1: NA PvE, 2: NA PvP, 3: EU PvE, 4: EU PvP)").toList
  | .setInterval =>
    ("`/set interval [秒]`\n監視間隔(秒)を設定します.\n指定された間隔ごとにサーバ情報やプレイヤー情報を取得し出力します.").toList
  | .setPlayerCount =>
    ("`/set player_count [人数]`\nサーバのプレイヤーが一気に増加した場合に通知を行う際の閾値を設定します.\n前回と今回のサーバ人数を比較し、この設定値以上になった場合にサーバ監視報告チャンネルに通知します.").toList
  | .fuckYeah => ("`/fuck xxx`\nFuck YEAH !!").toList
  | .helpCmd =>
    ("`/?`\nヘルプを表示します.\n/start /? のように入力するとコマンドのヘルプを表示します.").toList

/-- The parts of a Discord message the commands inspect: its text and the
    names of the text channels of its guild. -/
structure Message where
  content : Str
  serverChannels : List Str
  deriving Repr

/-- Modelled from the spec: `awsdb/consts.py` is not part of src/, so its
    225-entry `SERVER_NAMES` table is reconstructed from the spec (§4.3 step 1,
    §6 and the glossary): two-character server codes, letter A-O combined with
    number 1-15.  Only the set of names matters to the embedded code. -/
def SERVER_NAMES : List Str :=
  ("ABCDEFGHIJKLMNO".toList).flatMap (fun L =>
    (List.range 15).map (fun i => L :: Nat.toDigits 10 (i + 1)))

/-- Method `Utils.exists_server_name` (utils.py lines 360-374). -/
def exists_server_name (server_name : Str) : Bool :=
  SERVER_NAMES.contains server_name

/-- Method `Utils.exists_channel` (utils.py lines 269-283): case-insensitive name
    comparison over the guild's channels. -/
def exists_channel (serverChannels : List Str) (channel_name : Str) : Bool :=
  serverChannels.any (fun ch => pyUpper ch == pyUpper channel_name)

/-- The per-command `valid_custom` hooks (commands.py; the base class default
    returns success).  Where Python follows a successful `isdecimal()` check
    with `int(args)`, the parse cannot fail, so `(pyInt args).getD 0` is used. -/
def valid_custom (c : CmdId) (cfg : ASWDConfig) (m : Message) (args : Str) :
    Option Str :=
  match c with
  | .startCmd =>
    if cfg.is_watch_started then some (("監視継続します.").toList) else none
  | .addEnemy | .addBl =>
    if args.isEmpty then some (("プレイヤー名を正しく入力してください.").toList) else none
  | .delEnemy | .delBl =>
    if args.isEmpty then some (("プレイヤー名を正しく入力してください.").toList)
    else if !(cfg.enemy_names.contains args) then
      some (("敵プレイヤーは存在しません.").toList)
    else none
  | .addServer =>
    if args.isEmpty || !exists_server_name (pyUpper args) then
      some (("サーバー名にA1～O15を設定してください.").toList)
    else if exists_channel m.serverChannels args then
      some (("対象サーバは既に監視対象です.").toList)
    else none
  | .delServer =>
    if args.isEmpty || args.length != 2 || !exists_server_name (pyUpper args) then
      some (("サーバー名にA1～O15を設定してください.").toList)
    else if !exists_channel m.serverChannels args then
      some (("対象サーバは監視対象ではありません.").toList)
    else none
  | .setWorld =>
    if args.isEmpty || !pyIsDecimal args then
      some (("1から4の数字を設定してください.").toList)
    else
      let int_val := (pyInt args).getD 0
      if int_val < 1 ∨ 4 < int_val then
        some (("1から4の数字を設定してください.").toList)
      else none
  | .setInterval =>
    if args.isEmpty || !pyIsDecimal args then
      some (("監視間隔に数値を設定してください.").toList)
    else none
  | .setPlayerCount =>
    if args.isEmpty then
      some (("プレイヤー増加数を数値で設定してください.").toList)
    else none
  | _ => none

/-- Method `Command.is_call` (commands.py lines 58-66). -/
def is_call (c : CmdId) (msg : Str) : Bool := (token c).isPrefixOf msg

/-- Method `Command.is_cmd_help` (commands.py lines 68-76). -/
def is_cmd_help (c : CmdId) (msg : Str) : Bool := (token c ++ " /?".toList) == msg

/-- Method `Command.is_valid` (commands.py lines 78-91). -/
def is_valid (c : CmdId) (content : Str) : Bool :=
  if has_args c then
    (token c ++ " ".toList).isPrefixOf content
      && decide ((token c).length + 1 < content.length)
  else content == token c

/-- Outcome of the dispatch/validation phase (`CommandManager.execute` plus
    `Command.execute` up to the `execute_cmd` call): the messages sent to the
    invoking channel and, when every check passes, the command body reached
    together with its argument string.  This phase mutates no shared state;
    mutation only happens inside the bodies, modelled by `execute_cmd`. -/
structure DispatchResult where
  sent : List Str
  executed : Option (CmdId × Str)
  deriving Repr, DecidableEq

/-- Method `Command.execute` (commands.py lines 106-133) up to the `execute_cmd`
    call: help short-circuit, structural validation, then `valid_custom`. -/
def Command.execute (cfg : ASWDConfig) (c : CmdId) (m : Message) : DispatchResult :=
  if is_cmd_help c m.content then { sent := [usage c], executed := none }
  else if !is_valid c m.content then
    { sent := [("コマンドが正しくありません.\n").toList ++ usage c], executed := none }
  else
    let args := m.content.drop ((token c).length + 1)
    match valid_custom c cfg m args with
    | some vmsg => { sent := [vmsg ++ "\n".toList ++ usage c], executed := none }
    | none => { sent := [], executed := some (c, args) }

/-- Method `CommandManager.execute` (commands.py lines 216-241): ignore lines not
    starting with `/`, pick the first registered command whose token is a
    prefix of the line, fall back to the help usage when none matches. -/
def CommandManager.execute (cfg : ASWDConfig) (m : Message) : DispatchResult :=
  if !(("/").toList.isPrefixOf m.content) then { sent := [], executed := none }
  else
    match cmd_list.find? (fun c => is_call c m.content) with
    | none =>
      { sent := [("コマンドが正しくありません.\n").toList ++ usage .helpCmd],
        executed := none }
    | some c => Command.execute cfg c m

/-- Method `AddEnemyCommand.split_args` (commands.py lines 487-514): with a double
    quote present, scan characters keeping quoted spans atomic (quotes
    consumed), stripping each collected token; otherwise split on single
    spaces.  The `none` result mirrors the (dead) `return None` branch. -/
def split_args (args : Str) : Option (List Str) :=
  if args.contains '"' then
    let fin := args.foldl
      (fun (st : List Str × Str × Bool) s =>
        if s == ' ' && !st.2.2 then (st.1 ++ [pyStrip st.2.1], [], st.2.2)
        else if s == '"' then (st.1, st.2.1, !st.2.2)
        else (st.1, st.2.1 ++ [s], st.2.2))
      ([], [], false)
    some (if fin.2.1 ≠ [] then fin.1 ++ [pyStrip fin.2.1] else fin.1)
  else
    let ret := args.splitOn ' '
    if ret = [] then none else some ret

/-- Python exceptions that the modelled bodies can raise. -/
inductive PyError where
  | valueError
  | typeError
  deriving Repr, DecidableEq

/-- Chat messages produced by command bodies; formatted text is abstracted to
    a constructor carrying the interpolated values. -/
inductive BodyMsg where
  | watchStarted
  | watchStopped
  | enemyAdded
  | enemyDeleted
  | enemyListShown (listing : Str)
  | statusShown
  | helpShown
  | channelCreated (name : Str)
  | channelDeleted (name : Str)
  | worldSet (v : Int)
  | intervalClampNotice
  | intervalSet (v : Int)
  | thresholdClampNotice
  | thresholdSet (v : Int)
  | fuckYeahMsg
  deriving Repr, DecidableEq

/-- The `execute_cmd` bodies (commands.py).  `StartCommand`'s body resets the
    watch state and then enters the polling loop; the loop's per-cycle
    behaviour is modelled by `compute_player_sbn_count`, `enemy_match` and
    `notify_server`, so only the state reset is recorded here.  `int(args)`
    raising `ValueError` is modelled by `Except.error .valueError`. -/
def execute_cmd (c : CmdId) (cfg : ASWDConfig) (args : Str) :
    Except PyError (ASWDConfig × List BodyMsg) :=
  match c with
  | .startCmd =>
    .ok ({ cfg with is_watch_started := true, last_servers_info := [],
                    enemy_notice_server_names := [] }, [.watchStarted])
  | .stopCmd => .ok ({ cfg with is_watch_started := false }, [.watchStopped])
  | .addEnemy | .addBl =>
    match split_args args with
    | none => .error .typeError
    | some arg_list =>
      let pname := arg_list.getD 0 []
      let cname := arg_list.getD 1 []
      .ok ((cfg.add_enemy pname cname).2, [.enemyAdded])
  | .delEnemy | .delBl => .ok ((cfg.del_enemy args).2, [.enemyDeleted])
  | .listEnemy | .listBl => .ok (cfg, [.enemyListShown cfg.list_enemy])
  | .addServer => .ok (cfg, [.channelCreated (pyUpper args)])
  | .delServer => .ok (cfg, [.channelDeleted (pyUpper args)])
  | .statusCmd => .ok (cfg, [.statusShown])
  | .helpCmd => .ok (cfg, [.helpShown])
  | .fuckYeah => .ok (cfg, [.fuckYeahMsg])
  | .setWorld =>
    match pyInt args with
    | none => .error .valueError
    | some v => .ok (cfg.set_watch_world v, [.worldSet v])
  | .setInterval =>
    match pyInt args with
    | none => .error .valueError
    | some v =>
      if v < 30 then
        .ok (cfg.set_watch_interval 30, [.intervalClampNotice, .intervalSet 30])
      else .ok (cfg.set_watch_interval v, [.intervalSet v])
  | .setPlayerCount =>
    match pyInt args with
    | none => .error .valueError
    | some v =>
      if v < 3 then
        .ok (cfg.set_player_sbn_count 3, [.thresholdClampNotice, .thresholdSet 3])
      else .ok (cfg.set_player_sbn_count v, [.thresholdSet v])

/-- Full processing of one input line: dispatch, then the reached body. -/
def runLine (cfg : ASWDConfig) (m : Message) : Except PyError ASWDConfig :=
  match (CommandManager.execute cfg m).executed with
  | none => .ok cfg
  | some (c, args) => (execute_cmd c cfg args).map Prod.fst

/-- A concrete configuration used by concrete witnesses and counterexamples. -/
def cfg0 : ASWDConfig :=
  { watch_world := 1, watch_interval := 60, player_sbn_count := 5,
    enemy_list := [], is_watch_started := false, last_servers_info := [],
    enemy_notice_server_names := [], writes := 0 }

/-- C1 counterexample: with no prior snapshot for server A1 the computed
    player_sbn_count is 0, not -1, and with a configured threshold of 0 the
    surge alert is nevertheless emitted in that cycle, so the claimed sentinel
    and the "never regardless of threshold" guarantee both fail. -/
theorem c1_counterexample :
    compute_player_sbn_count [] (("A1").toList) 10 = 0 ∧
    compute_player_sbn_count [] (("A1").toList) 10 ≠ -1 ∧
    (notify_server 0 []
      { server_name := ("A1").toList, player_count := 10,
        player_sbn_count := compute_player_sbn_count [] (("A1").toList) 10,
        enemy_players := [] }).1.countP isSurgeAlert = 1 := by decide

/-- C1 amended: for every poll cycle and watched server, if no prior snapshot
    exists for the server name then the computed player_sbn_count is 0, and a
    surge alert is not emitted for that server in that cycle for any
    configured threshold of at least 1. -/
theorem c1_theorem (last : List (Str × ServerInfo)) (name : Str)
    (pc threshold : Int) (notice : List Str) (eps : List Str)
    (hnone : last.lookup name = none) (hth : 1 ≤ threshold) :
    compute_player_sbn_count last name pc = 0 ∧
    (notify_server threshold notice
      { server_name := name, player_count := pc,
        player_sbn_count := compute_player_sbn_count last name pc,
        enemy_players := eps }).1.countP isSurgeAlert = 0 := by
  have h0 : compute_player_sbn_count last name pc = 0 := by
    simp [compute_player_sbn_count, hnone]
  refine ⟨h0, ?_⟩
  have hns : ¬ threshold ≤ (0 : Int) := by omega
  clear hnone
  simp only [notify_server, h0]
  rw [if_neg hns]
  split_ifs <;>
    simp [List.countP_append, List.countP_cons, isSurgeAlert]

/-- C1 amended witness at a concrete instance. -/
theorem c1_witness :
    compute_player_sbn_count [] (("A1").toList) 10 = 0 ∧
    (notify_server 3 []
      { server_name := ("A1").toList, player_count := 10,
        player_sbn_count := compute_player_sbn_count [] (("A1").toList) 10,
        enemy_players := [] }).1.countP isSurgeAlert = 0 :=
  c1_theorem [] (("A1").toList) 10 3 [] [] rfl (by decide)

/-- C2 counterexample: after `add_enemy("Bcd", "Acme")` the player "abcde" is
    matched, but the produced string is "abcde(Acme)" — the parenthesised label
    is the stored company, not the watch-list entry name — so it is not
    "abcde(Bcd)" as claimed. -/
theorem c2_counterexample :
    enemy_match ((cfg0.add_enemy (("Bcd").toList) (("Acme").toList)).2.enemy_list)
      [("abcde").toList] = [("abcde(Acme)").toList] ∧
    ("abcde(Bcd)").toList ∉
      enemy_match ((cfg0.add_enemy (("Bcd").toList) (("Acme").toList)).2.enemy_list)
        [("abcde").toList] := by decide

/-- C2 amended: after adding the watch-list entry "Bcd" with company "Acme", a
    fetched player named "abcde" yields exactly the enemy-match string
    "abcde(Acme)": the substring match is case-insensitive and the label in
    parentheses is the company stored for the watch-list entry, not the entry
    name and not taken from the player. -/
theorem c2_theorem :
    enemy_match ((cfg0.add_enemy (("Bcd").toList) (("Acme").toList)).2.enemy_list)
      [("abcde").toList] = [("abcde(Acme)").toList] := by decide

/-- C3 counterexample: the `watch_interval` property setter of `ASWDConfig`
    stores 5 when given 5 — no clamping to 30 happens on this set — while the
    `player_sbn_count` setter does clamp 1 up to 3. -/
theorem c3_counterexample :
    (cfg0.set_watch_interval 5).watch_interval = 5 ∧
    (cfg0.set_watch_interval 5).watch_interval ≠ 30 ∧
    (cfg0.set_player_sbn_count 1).player_sbn_count = 3 := by decide

/-- C3 amended: setting the watch interval below 30 through the /set interval
    command stores 30 — the clamp lives in the command handler, and the raw
    `ASWDConfig.watch_interval` setter stores its argument unclamped — while
    setting the player-surge threshold below 3 stores 3 on every set of the
    `ASWDConfig.player_sbn_count` setter (and hence through its command); in
    particular "/set interval 5" stores 30 and "/set player_count 1" stores 3. -/
theorem c3_theorem (cfg : ASWDConfig) (v : Int) (hv : v < 3) :
    runLine cfg { content := ("/set interval 5").toList, serverChannels := [] }
      = .ok (cfg.set_watch_interval 30) ∧
    runLine cfg { content := ("/set player_count 1").toList, serverChannels := [] }
      = .ok (cfg.set_player_sbn_count 3) ∧
    (cfg.set_watch_interval 30).watch_interval = 30 ∧
    (cfg.set_player_sbn_count v).player_sbn_count = 3 ∧
    (cfg.set_player_sbn_count 3).player_sbn_count = 3 := by
  refine ⟨rfl, rfl, rfl, ?_, rfl⟩
  have : ¬ v ≥ (3 : Int) := by omega
  simp [ASWDConfig.set_player_sbn_count, this]

/-- C3 amended witness at a concrete instance. -/
theorem c3_witness :
    runLine cfg0 { content := ("/set interval 5").toList, serverChannels := [] }
      = .ok (cfg0.set_watch_interval 30) ∧
    (cfg0.set_player_sbn_count 1).player_sbn_count = 3 :=
  ⟨(c3_theorem cfg0 1 (by decide)).1, (c3_theorem cfg0 1 (by decide)).2.2.2.1⟩

/-- Helper: status-line/surge messages of one cycle contain no intrusion
    alert. -/
theorem countP_intr_msgs1 (p : Prop) [Decidable p] (sn : Str) (pc s : Int)
    (eps : List Str) :
    (if p then
        [Notification.statusLine sn pc eps, Notification.surgeAlert s pc]
      else [Notification.statusLine sn pc eps]).countP isIntrusionAlert = 0 := by
  split_ifs <;> simp [List.countP_cons, isIntrusionAlert]

/-- Helper: status-line/surge messages of one cycle contain no all-clear. -/
theorem countP_clear_msgs1 (p : Prop) [Decidable p] (sn : Str) (pc s : Int)
    (eps : List Str) :
    (if p then
        [Notification.statusLine sn pc eps, Notification.surgeAlert s pc]
      else [Notification.statusLine sn pc eps]).countP isAllClear = 0 := by
  split_ifs <;> simp [List.countP_cons, isAllClear]

/-- Helper: one cycle with no enemies on a server not in the notice list
    emits neither an intrusion alert nor an all-clear and keeps the list. -/
theorem notify_no_enemies (th : Int) (notice : List Str) (name : Str)
    (pc s : Int) (h : name ∉ notice) :
    notify_server th notice ⟨name, pc, s, []⟩ =
      ((if th ≤ s then
          [Notification.statusLine name pc [], Notification.surgeAlert s pc]
        else [Notification.statusLine name pc []]), notice) := by
  simp [notify_server, h]

/-- Helper: one cycle with two enemies on a server not in the notice list
    emits the intrusion alert and appends the server to the notice list. -/
theorem notify_two_enemies (th : Int) (notice : List Str) (name e1 e2 : Str)
    (pc s : Int) (h : name ∉ notice) :
    notify_server th notice ⟨name, pc, s, [e1, e2]⟩ =
      ((if th ≤ s then
          [Notification.statusLine name pc [e1, e2], Notification.surgeAlert s pc]
        else [Notification.statusLine name pc [e1, e2]])
          ++ [Notification.intrusionAlert [e1, e2]],
       notice ++ [name]) := by
  simp [notify_server, h]

/-- Helper: one cycle with no enemies on a server in the notice list emits
    the all-clear and removes the server from the notice list. -/
theorem notify_clear (th : Int) (notice : List Str) (name : Str)
    (pc s : Int) (h : name ∈ notice) :
    notify_server th notice ⟨name, pc, s, []⟩ =
      ((if th ≤ s then
          [Notification.statusLine name pc [], Notification.surgeAlert s pc]
        else [Notification.statusLine name pc []]) ++ [Notification.allClear],
       notice.erase name) := by
  simp [notify_server, h]

/-- C4: a server whose enemy-match count over three consecutive cycles is
    0, then 2, then 0, starting from a notice list not containing it, produces
    exactly one intrusion alert (on the 0-to-2 transition, which adds the
    server to the notice list) and exactly one all-clear message (on the
    2-to-0 transition, which removes it), and the notice list returns to its
    starting value. -/
theorem c4_theorem (threshold : Int) (name e1 e2 : Str) (notice0 : List Str)
    (pc1 pc2 pc3 s1 s2 s3 : Int) (h : name ∉ notice0) :
    (run_cycles threshold
      [⟨name, pc1, s1, []⟩, ⟨name, pc2, s2, [e1, e2]⟩, ⟨name, pc3, s3, []⟩]
      notice0).1.countP isIntrusionAlert = 1 ∧
    (run_cycles threshold
      [⟨name, pc1, s1, []⟩, ⟨name, pc2, s2, [e1, e2]⟩, ⟨name, pc3, s3, []⟩]
      notice0).1.countP isAllClear = 1 ∧
    (run_cycles threshold
      [⟨name, pc1, s1, []⟩, ⟨name, pc2, s2, [e1, e2]⟩, ⟨name, pc3, s3, []⟩]
      notice0).2 = notice0 := by
  have herase : (notice0 ++ [name]).erase name = notice0 := by
    rw [List.erase_append_right _ h, List.erase_cons_head, List.append_nil]
  have hmem : name ∈ notice0 ++ [name] := by simp
  simp only [run_cycles,
    notify_no_enemies threshold notice0 name pc1 s1 h,
    notify_two_enemies threshold notice0 name e1 e2 pc2 s2 h,
    notify_clear threshold (notice0 ++ [name]) name pc3 s3 hmem,
    herase, List.countP_append, List.append_nil]
  refine ⟨?_, ?_, ?_⟩ <;>
    simp [countP_intr_msgs1, countP_clear_msgs1, List.countP_cons,
      isIntrusionAlert, isAllClear]

/-- C4 witness at a concrete instance. -/
theorem c4_witness :
    (run_cycles 3
      [⟨("A1").toList, 5, 0, []⟩,
       ⟨("A1").toList, 7, 2, [("e").toList, ("f").toList]⟩,
       ⟨("A1").toList, 5, -2, []⟩] []).1.countP isIntrusionAlert = 1 ∧
    (run_cycles 3
      [⟨("A1").toList, 5, 0, []⟩,
       ⟨("A1").toList, 7, 2, [("e").toList, ("f").toList]⟩,
       ⟨("A1").toList, 5, -2, []⟩] []).1.countP isAllClear = 1 ∧
    (run_cycles 3
      [⟨("A1").toList, 5, 0, []⟩,
       ⟨("A1").toList, 7, 2, [("e").toList, ("f").toList]⟩,
       ⟨("A1").toList, 5, -2, []⟩] []).2 = [] :=
  c4_theorem 3 (("A1").toList) (("e").toList) (("f").toList) [] 5 7 5 0 2 (-2)
    (by decide)

/-- C5: for every registered command, dispatching the line made of its token
    followed by " /?" sends exactly that command's usage text and reaches no
    command body — the dispatch/validation phase mutates no shared state, so
    no side effect beyond the usage message occurs, for every configuration
    and channel environment. -/
theorem c5_theorem (c : CmdId) (cfg : ASWDConfig) (chans : List Str) :
    CommandManager.execute cfg
        { content := token c ++ (" /?").toList, serverChannels := chans }
      = { sent := [usage c], executed := none } := by
  cases c <;> rfl

/-- C6: (a) for every command declared with no arguments, any input with
    trailing characters after the exact token fails structural validation;
    (b) for every command declared with arguments, structural validation
    accepts exactly the inputs equal to the token followed by a space and a
    nonempty remainder; (c) whenever structural validation fails (outside the
    help short-circuit), the dispatcher reports the failure message with the
    usage text and never reaches the command body. -/
theorem c6_theorem :
    (∀ c : CmdId, has_args c = false → ∀ s : Str, s ≠ [] →
      is_valid c (token c ++ s) = false) ∧
    (∀ c : CmdId, has_args c = true → ∀ content : Str,
      (is_valid c content = true ↔
        ∃ r : Str, r ≠ [] ∧ content = token c ++ (" ").toList ++ r)) ∧
    (∀ (cfg : ASWDConfig) (c : CmdId) (m : Message),
      is_cmd_help c m.content = false → is_valid c m.content = false →
      Command.execute cfg c m =
        { sent := [("コマンドが正しくありません.\n").toList ++ usage c],
          executed := none }) := by
  refine ⟨?_, ?_, ?_⟩
  · intro c hc s hs
    simp [is_valid, hc, List.append_right_eq_self, hs]
  · intro c hc content
    have hiv : is_valid c content =
        ((token c ++ (" ").toList).isPrefixOf content
          && decide ((token c).length + 1 < content.length)) := by
      simp [is_valid, hc]
    rw [hiv]
    constructor
    · intro hb
      rw [Bool.and_eq_true, List.isPrefixOf_iff_prefix, decide_eq_true_eq] at hb
      obtain ⟨⟨t, ht⟩, hlen⟩ := hb
      refine ⟨t, ?_, ht.symm⟩
      intro h0
      subst h0
      rw [← ht] at hlen
      simp [List.length_append] at hlen
    · rintro ⟨r, hr, rfl⟩
      rw [Bool.and_eq_true, List.isPrefixOf_iff_prefix, decide_eq_true_eq]
      refine ⟨⟨r, rfl⟩, ?_⟩
      have hrp : 0 < r.length := List.length_pos.mpr hr
      simp [List.length_append]
      omega
  · intro cfg c m h1 h2
    simp [Command.execute, h1, h2]

/-- C6 witness at concrete instances of all three parts. -/
theorem c6_witness :
    is_valid .statusCmd (token .statusCmd ++ (" x").toList) = false ∧
    is_valid .addEnemy (token .addEnemy ++ (" ").toList ++ ("B").toList) = true ∧
    Command.execute cfg0 .statusCmd
        { content := ("/status x").toList, serverChannels := [] } =
      { sent := [("コマンドが正しくありません.\n").toList ++ usage .statusCmd],
        executed := none } :=
  ⟨c6_theorem.1 .statusCmd rfl ((" x").toList) (by decide),
   (c6_theorem.2.1 .addEnemy rfl (token .addEnemy ++ (" ").toList ++ ("B").toList)).mpr
     ⟨("B").toList, by decide, rfl⟩,
   c6_theorem.2.2 cfg0 .statusCmd
     { content := ("/status x").toList, serverChannels := [] }
     (by decide) (by decide)⟩

/-- Helper: the only name/company pair rendering to "X(Y)" is ("X","Y"). -/
theorem render_eq_XY (n c : Str)
    (h : render_enemy (n, c) = [ 'X', '(', 'Y', ')' ]) :
    n = [ 'X' ] ∧ c = [ 'Y' ] := by
  rcases n with _ | ⟨a, _ | ⟨b, n⟩⟩
  · simp [render_enemy] at h
  · simp [render_enemy] at h
    rcases c with _ | ⟨d, _ | ⟨e, c⟩⟩ <;> simp_all
  · simp [render_enemy] at h
    rcases n with _ | ⟨x, n⟩ <;> rcases c with _ | ⟨d, c⟩ <;> simp_all <;>
      · obtain ⟨h1, h2, h3, h4⟩ := h
        have hl := congrArg List.length h4
        simp only [List.length_append, List.length_cons, List.length_nil] at hl
        omega

theorem c7_theorem (cfg : ASWDConfig) (hX : [ 'X' ] ∉ cfg.enemy_names) :
    (cfg.add_enemy [ 'X' ] [ 'Y' ]).1 = true ∧
    [ 'X', '(', 'Y', ')' ] ∈ (cfg.add_enemy [ 'X' ] [ 'Y' ]).2.list_enemy_items ∧
    ((cfg.add_enemy [ 'X' ] [ 'Y' ]).2.del_enemy [ 'X' ]).1 = true ∧
    ((cfg.add_enemy [ 'X' ] [ 'Y' ]).2.del_enemy [ 'X' ]).2.enemy_list
      = cfg.enemy_list ∧
    ((cfg.add_enemy [ 'X' ] [ 'Y' ]).2.del_enemy [ 'X' ]).2.writes
      = cfg.writes + 2 ∧
    [ 'X', '(', 'Y', ')' ] ∉
      ((cfg.add_enemy [ 'X' ] [ 'Y' ]).2.del_enemy [ 'X' ]).2.list_enemy_items ∧
    (∀ nm : Str, nm ∉ cfg.enemy_names → cfg.del_enemy nm = (false, cfg)) ∧
    (∀ nm comp : Str, nm ∈ cfg.enemy_names → cfg.add_enemy nm comp = (false, cfg)) := by
  have hstrip : pyStrip [ 'Y' ] = [ 'Y' ] := by decide
  have hadd : cfg.add_enemy [ 'X' ] [ 'Y' ]
      = (true, { cfg with
          enemy_list := cfg.enemy_list ++ [([ 'X' ], [ 'Y' ])],
          writes := cfg.writes + 1 }) := by
    simp [ASWDConfig.add_enemy, hX, hstrip]
  have hkeys : ∀ b ∈ cfg.enemy_list, ¬ ((fun p => p.1 == [ 'X' ]) b = true) := by
    intro b hb
    simp only [beq_iff_eq]
    intro heq
    exact hX (heq ▸ List.mem_map_of_mem Prod.fst hb)
  have hdel_list : (cfg.enemy_list ++ [([ 'X' ], [ 'Y' ])]).eraseP
      (fun p => p.1 == [ 'X' ]) = cfg.enemy_list := by
    rw [List.eraseP_append_right _ hkeys]
    simp [List.eraseP_cons_of_pos]
  have hdel : ({ cfg with
        enemy_list := cfg.enemy_list ++ [([ 'X' ], [ 'Y' ])],
        writes := cfg.writes + 1 } : ASWDConfig).del_enemy [ 'X' ]
      = (true, { cfg with enemy_list := cfg.enemy_list,
                          writes := cfg.writes + 1 + 1 }) := by
    simp [ASWDConfig.del_enemy, ASWDConfig.enemy_names, hdel_list]
  have hrenderXY : render_enemy ([ 'X' ], [ 'Y' ]) = [ 'X', '(', 'Y', ')' ] := by decide
  refine ⟨?_, ?_, ?_, ?_, ?_, ?_, ?_, ?_⟩
  · rw [hadd]
  · rw [hadd]
    simp [ASWDConfig.list_enemy_items, List.map_append, hrenderXY]
  · rw [hadd, hdel]
  · rw [hadd, hdel]
  · rw [hadd, hdel]
  · rw [hadd, hdel]
    intro hmem
    simp only [ASWDConfig.list_enemy_items] at hmem
    obtain ⟨p, hp, hr⟩ := List.mem_map.mp hmem
    have hXY : render_enemy (p.1, p.2) = [ 'X', '(', 'Y', ')' ] := hr
    obtain ⟨h1, h2⟩ := render_eq_XY p.1 p.2 hXY
    exact hX (h1 ▸ List.mem_map_of_mem Prod.fst hp)
  · intro nm hnm
    simp [ASWDConfig.del_enemy, hnm]
  · intro nm comp hnm
    simp [ASWDConfig.add_enemy, hnm]


/-- C7 witness at a concrete instance. -/
theorem c7_witness :
    (cfg0.add_enemy [ 'X' ] [ 'Y' ]).1 = true ∧
    [ 'X', '(', 'Y', ')' ] ∈ (cfg0.add_enemy [ 'X' ] [ 'Y' ]).2.list_enemy_items ∧
    cfg0.del_enemy [ 'Q' ] = (false, cfg0) ∧
    (cfg0.add_enemy [ 'A' ] [ 'B' ]).2.add_enemy [ 'A' ] [ 'Z' ]
      = (false, (cfg0.add_enemy [ 'A' ] [ 'B' ]).2) :=
  ⟨(c7_theorem cfg0 (by decide)).1,
   (c7_theorem cfg0 (by decide)).2.1,
   (c7_theorem cfg0 (by decide)).2.2.2.2.2.2.1 [ 'Q' ] (by decide),
   (c7_theorem (cfg0.add_enemy [ 'A' ] [ 'B' ]).2 (by decide)).2.2.2.2.2.2.2
     [ 'A' ] [ 'Z' ] (by decide)⟩

/-- C8: the argument string `"player name" "company name"` tokenizes to
    exactly the two tokens `player name` and `company name`, quotes consumed
    and the inner spaces preserved. -/
theorem c8_theorem :
    split_args (("\"player name\" \"company name\"").toList)
      = some [("player name").toList, ("company name").toList] := by decide

/-- C9: "/set player_count abc" passes the whole validation chain (its
    `valid_custom` only rejects emptiness) and reaches the body, where
    `int("abc")` raises an uncaught ValueError; "/set interval abc" and
    "/set world abc" are instead rejected by their `valid_custom` with an
    error message plus usage, never reaching their bodies. -/
theorem c9_theorem (cfg : ASWDConfig) (chans : List Str) :
    (CommandManager.execute cfg
        { content := ("/set player_count abc").toList,
          serverChannels := chans }).executed
      = some (.setPlayerCount, ("abc").toList) ∧
    runLine cfg
        { content := ("/set player_count abc").toList, serverChannels := chans }
      = .error .valueError ∧
    pyInt (("abc").toList) = none ∧
    CommandManager.execute cfg
        { content := ("/set interval abc").toList, serverChannels := chans }
      = { sent := [("監視間隔に数値を設定してください.").toList ++ ("\n").toList
            ++ usage .setInterval], executed := none } ∧
    CommandManager.execute cfg
        { content := ("/set world abc").toList, serverChannels := chans }
      = { sent := [("1から4の数字を設定してください.").toList ++ ("\n").toList
            ++ usage .setWorld], executed := none } :=
  ⟨rfl, rfl, rfl, rfl, rfl⟩

/-- C10 counterexample: starting from the empty watch list, adding "AB" and
    then "ab" both succeed; afterwards the string "ab" differs from the stored
    name "AB" only in letter case, yet `del_enemy "ab"` succeeds and removes
    an entry instead of reporting the name absent, so the claim's universal
    statement fails on this reachable state. -/
theorem c10_counterexample :
    (cfg0.add_enemy [ 'A', 'B' ] [ 'x' ]).1 = true ∧
    ((cfg0.add_enemy [ 'A', 'B' ] [ 'x' ]).2.add_enemy [ 'a', 'b' ] [ 'y' ]).1 = true ∧
    [ 'A', 'B' ] ∈
      ((cfg0.add_enemy [ 'A', 'B' ] [ 'x' ]).2.add_enemy [ 'a', 'b' ] [ 'y' ]).2.enemy_names ∧
    pyUpper [ 'a', 'b' ] = pyUpper [ 'A', 'B' ] ∧
    [ 'a', 'b' ] ≠ [ 'A', 'B' ] ∧
    (((cfg0.add_enemy [ 'A', 'B' ] [ 'x' ]).2.add_enemy [ 'a', 'b' ] [ 'y' ]).2.del_enemy
      [ 'a', 'b' ]).1 = true ∧
    (((cfg0.add_enemy [ 'A', 'B' ] [ 'x' ]).2.add_enemy [ 'a', 'b' ] [ 'y' ]).2.del_enemy
      [ 'a', 'b' ]).2.enemy_list = [([ 'A', 'B' ], [ 'x' ])] := by decide

/-- C10 amended: deleting an enemy compares the raw argument string against
    the stored names with case-sensitive exact equality: for every stored name,
    when the given string differs from it only in letter case and is not
    itself (case-sensitively) a stored name, `del_enemy` fails and changes
    nothing, and the /del enemy validation reports the name absent — even
    though the watch loop's matcher, being case-insensitive, matches the two. -/
theorem c10_theorem (cfg : ASWDConfig) (m : Message) (s n : Str)
    (hn : n ∈ cfg.enemy_names) (hcase : pyUpper s = pyUpper n)
    (hne : s ∉ cfg.enemy_names) :
    cfg.del_enemy s = (false, cfg) ∧
    valid_custom .delEnemy cfg m s = some (("敵プレイヤーは存在しません.").toList) ∧
    isSubstring (pyUpper n) (pyUpper s) = true := by
  have hsne : s ≠ [] := by
    intro h0
    subst h0
    have hupn : pyUpper n = [] := hcase.symm
    have hn0 : n = [] := by
      cases n with
      | nil => rfl
      | cons a t => simp [pyUpper] at hupn
    exact hne (hn0 ▸ hn)
  have hcont : cfg.enemy_names.contains s = false := by
    simpa using hne
  refine ⟨?_, ?_, ?_⟩
  · simp [ASWDConfig.del_enemy, hne]
  · simp [valid_custom, hsne, hcont]
    exact hne
  · rw [hcase]
    generalize pyUpper n = u
    cases u with
    | nil => rfl
    | cons a t =>
      simp [isSubstring, List.isPrefixOf_iff_prefix]

/-- C10 amended witness at a concrete instance. -/
theorem c10_witness :
    (cfg0.add_enemy [ 'B', 'c', 'd' ] [ 'A' ]).2.del_enemy [ 'B', 'C', 'D' ]
      = (false, (cfg0.add_enemy [ 'B', 'c', 'd' ] [ 'A' ]).2) ∧
    valid_custom .delEnemy (cfg0.add_enemy [ 'B', 'c', 'd' ] [ 'A' ]).2
        { content := [], serverChannels := [] } [ 'B', 'C', 'D' ]
      = some (("敵プレイヤーは存在しません.").toList) ∧
    isSubstring (pyUpper [ 'B', 'c', 'd' ]) (pyUpper [ 'B', 'C', 'D' ]) = true :=
  c10_theorem (cfg0.add_enemy [ 'B', 'c', 'd' ] [ 'A' ]).2
    { content := [], serverChannels := [] } [ 'B', 'C', 'D' ] [ 'B', 'c', 'd' ]
    (by decide) (by decide) (by decide)
